import Mathlib

/-!
# Descriptor sets of `vcc` (`vcc/include/vcc/descriptor_set.h`)

A shallow embedding of the bind-point key, its hash, the descriptor set
entity with its two registries, and the update request constructors.

`uint32_t` values are natural numbers; a key is well formed (`is_uint32`)
when both fields are below `2 ^ 32`. Arithmetic that C++ performs in 32 bits
carries an explicit `% 2 ^ 32`.
-/

namespace vcc

namespace internal

/-- The struct `internal::bind_point_type`: two `uint32_t` fields. -/
structure bind_point_type where
  bind : Nat
  index : Nat
deriving DecidableEq, Repr

/-- Both fields fit the `uint32_t` they are stored in. -/
def bind_point_type.is_uint32 (k : bind_point_type) : Prop :=
  k.bind < 2 ^ 32 ∧ k.index < 2 ^ 32

instance (k : bind_point_type) : Decidable k.is_uint32 := by
  unfold bind_point_type.is_uint32; infer_instance

/-- The member `bind_point_type::operator==`:
`bind == copy.bind && index == copy.index`. -/
def bind_point_type.eq (self copy : bind_point_type) : Bool :=
  self.bind == copy.bind && self.index == copy.index

/-- The functor `hash_bind_point::operator()`. The flag `wide` is the value of
`sizeof(std::size_t) == 8`. The operands are `uint32_t`, so the shift and the
sum are taken modulo `2 ^ 32` before the widening to `std::size_t`. -/
def hash_bind_point (wide : Bool) (bind_point : bind_point_type) : Nat :=
  if wide then
    ((bind_point.bind <<< 4) % 2 ^ 32) ||| bind_point.index
  else
    (bind_point.bind + bind_point.index) % 2 ^ 32


/-- Bucket lookup of an unordered mapping: the first entry whose key compares
equal (with `operator==`) to the key looked up. -/
def bucket_find {V : Type} (k : bind_point_type) :
    List (bind_point_type × V) → Option V
  | [] => none
  | e :: es => if e.1.eq k then some e.2 else bucket_find k es

/-- Bucket insertion of an unordered mapping: the value of an entry whose key
compares equal is replaced, otherwise a new entry is added. -/
def bucket_put {V : Type} (k : bind_point_type) (v : V) :
    List (bind_point_type × V) → List (bind_point_type × V)
  | [] => [(k, v)]
  | e :: es => if e.1.eq k then (e.1, v) :: es else e :: bucket_put k v es

/-- Modelled from the spec: the registry templates `hook_map_type` and
`reference_map_type` (declared in `vcc/internal/hook.h`, which is not among
the sources). The spec describes an unordered mapping keyed by the bind-point
key, with `hash_bind_point` as hash and `operator==` as key equality. It is a
sequence of buckets; a key lives in the bucket its hash selects. The reference
registry maps a key to one ownership token, the hook registry maps a key to
the ordered list of its callbacks. -/
structure registry (V : Type) where
  buckets : List (List (bind_point_type × V))

/-- A default-constructed registry holds no entry. -/
def registry.empty {V : Type} : registry V :=
  { buckets := [[]] }

/-- The bucket a key is stored in: its hash modulo the bucket count. -/
def registry.bucket_index {V : Type} (wide : Bool) (r : registry V)
    (k : bind_point_type) : Nat :=
  hash_bind_point wide k % r.buckets.length

/-- Lookup of a key in a registry. -/
def registry.lookup {V : Type} (wide : Bool) (r : registry V)
    (k : bind_point_type) : Option V :=
  bucket_find k (r.buckets.getD (r.bucket_index wide k) [])

/-- Modelled from the spec: insertion into the reference registry, which
replaces the value of a key already present (spec 4.1: "the reference registry
insert replaces"). -/
def registry.insert {V : Type} (wide : Bool) (r : registry V)
    (k : bind_point_type) (v : V) : registry V :=
  { buckets := r.buckets.set (r.bucket_index wide k)
      (bucket_put k v (r.buckets.getD (r.bucket_index wide k) [])) }

end internal

namespace descriptor_set

open internal

/-- The struct `descriptor_set_type`. `Base` stands for the base class
`movable_allocated_with_pool_parent2` (native handle, pool and device links),
`Cb` for the callbacks taking a `queue_type &`, `Tok` for the ownership
tokens. -/
structure descriptor_set_type (Base Cb Tok : Type) where
  base : Base
  pre_execute_callbacks : registry (List Cb)
  references : registry Tok

/-- The move constructor `descriptor_set_type(descriptor_set_type &&copy)`.
Its initializer list names the base class and `pre_execute_callbacks` only;
`references` is absent from it and is therefore default-constructed. -/
def descriptor_set_type.move_construct {Base Cb Tok : Type}
    (copy : descriptor_set_type Base Cb Tok) : descriptor_set_type Base Cb Tok :=
  { base := copy.base
    pre_execute_callbacks := copy.pre_execute_callbacks
    references := registry.empty }

/-- The Vulkan enumeration `VkDescriptorType` (core values 0 to 10). -/
inductive VkDescriptorType where
  | SAMPLER
  | COMBINED_IMAGE_SAMPLER
  | SAMPLED_IMAGE
  | STORAGE_IMAGE
  | UNIFORM_TEXEL_BUFFER
  | STORAGE_TEXEL_BUFFER
  | UNIFORM_BUFFER
  | STORAGE_BUFFER
  | UNIFORM_BUFFER_DYNAMIC
  | STORAGE_BUFFER_DYNAMIC
  | INPUT_ATTACHMENT
deriving DecidableEq, Repr

/-- The struct `copy`. `S` stands for `type::supplier<descriptor_set_type>`. -/
structure copy (S : Type) where
  src_set : S
  src_binding : Nat
  src_array_element : Nat
  dst_set : S
  dst_binding : Nat
  dst_array_element : Nat
  descriptor_count : Nat

/-- The struct `image_info`. `Smp` and `IV` stand for the sampler and image
view suppliers; `image_layout` is a `VkImageLayout` value. -/
structure image_info (Smp IV : Type) where
  sampler : Smp
  image_view : IV
  image_layout : Nat

/-- The struct `buffer_info_type`. `B` stands for
`type::supplier<buffer::buffer_type>`; the sizes are `VkDeviceSize`. -/
structure buffer_info_type (B : Type) where
  buffer : B
  offset : Nat
  range : Nat

/-- The function `buffer_info`. -/
def buffer_info {B : Type} (buffer : B) (offset range : Nat) : buffer_info_type B :=
  { buffer := buffer, offset := offset, range := range }

/-- The struct `write_image`. -/
structure write_image (S Smp IV : Type) where
  dst_set : S
  dst_binding : Nat
  dst_array_element : Nat
  descriptor_type : VkDescriptorType
  images : List (image_info Smp IV)

/-- The struct `write_buffer_type`. -/
structure write_buffer_type (S B : Type) where
  dst_set : S
  dst_binding : Nat
  dst_array_element : Nat
  descriptor_type : VkDescriptorType
  buffers : List (buffer_info_type B)

/-- The descriptor types the comment on `write_buffer_type::descriptor_type`
lists: "Must be any of the following only". -/
def write_buffer_legal : VkDescriptorType → Bool
  | .UNIFORM_BUFFER => true
  | .STORAGE_BUFFER => true
  | .UNIFORM_BUFFER_DYNAMIC => true
  | .STORAGE_BUFFER_DYNAMIC => true
  | _ => false

/-- The function `write_buffer`: an aggregate initialisation from the
arguments, in order. -/
def write_buffer {S B : Type} (dst_set : S) (dst_binding dst_array_element : Nat)
    (descriptor_type : VkDescriptorType) (buffers : List (buffer_info_type B)) :
    write_buffer_type S B :=
  { dst_set := dst_set, dst_binding := dst_binding,
    dst_array_element := dst_array_element,
    descriptor_type := descriptor_type, buffers := buffers }

/-- The struct `write_buffer_view_type`. `BV` stands for
`type::supplier<buffer_view::buffer_view_type>`. -/
structure write_buffer_view_type (S BV : Type) where
  dst_set : S
  dst_binding : Nat
  dst_array_element : Nat
  descriptor_type : VkDescriptorType
  buffers : List BV

/-- The function `write_buffer_view`. -/
def write_buffer_view {S BV : Type} (dst_set : S)
    (dst_binding dst_array_element : Nat) (descriptor_type : VkDescriptorType)
    (buffers : List BV) : write_buffer_view_type S BV :=
  { dst_set := dst_set, dst_binding := dst_binding,
    dst_array_element := dst_array_element,
    descriptor_type := descriptor_type, buffers := buffers }

namespace internal

/-- The target of the info pointer of a write descriptor: the position of the
nested array within the collection of its kind. -/
inductive nested_ref where
  | image_infos (position : Nat)
  | buffer_infos (position : Nat)
  | buffer_view (position : Nat)
deriving DecidableEq, Repr

/-- The Vulkan struct `VkCopyDescriptorSet`, fields that a copy request
determines. -/
structure VkCopyDescriptorSet (S : Type) where
  srcSet : S
  srcBinding : Nat
  srcArrayElement : Nat
  dstSet : S
  dstBinding : Nat
  dstArrayElement : Nat
  descriptorCount : Nat

/-- The Vulkan struct `VkWriteDescriptorSet`, fields that a write request
determines; `info` stands for the one of `pImageInfo`, `pBufferInfo` and
`pTexelBufferView` that is set. -/
structure VkWriteDescriptorSet (S : Type) where
  dstSet : S
  dstBinding : Nat
  dstArrayElement : Nat
  descriptorCount : Nat
  descriptorType : VkDescriptorType
  info : nested_ref

/-- The struct `internal::update_storage`: the five collections and the five
totals. The list `deferred_locks` of lock guards is left out. -/
structure update_storage (S Smp IV B BV : Type) where
  copy_sets : List (VkCopyDescriptorSet S)
  write_sets : List (VkWriteDescriptorSet S)
  image_infos : List (List (image_info Smp IV))
  buffer_infos : List (List (buffer_info_type B))
  buffer_view : List (List BV)
  copy_sets_size : Nat
  write_sets_size : Nat
  image_info_size : Nat
  buffer_info_size : Nat
  buffer_view_size : Nat

/-- A default-initialised `update_storage`: empty collections, and totals with
their member initialiser `= 0`. -/
def update_storage.fresh {S Smp IV B BV : Type} : update_storage S Smp IV B BV :=
  { copy_sets := [], write_sets := [], image_infos := [], buffer_infos := [],
    buffer_view := [], copy_sets_size := 0, write_sets_size := 0,
    image_info_size := 0, buffer_info_size := 0, buffer_view_size := 0 }

/-- One update request of a batch: the four argument types of the overloads of
`add`. -/
inductive request (S Smp IV B BV : Type) where
  | copy (c : descriptor_set.copy S)
  | write_image (w : descriptor_set.write_image S Smp IV)
  | write_buffer (w : descriptor_set.write_buffer_type S B)
  | write_buffer_view (w : descriptor_set.write_buffer_view_type S BV)

/-- The argument types of the overloads of `count`. The header declares three:
for `write_image`, `write_buffer_type` and `write_buffer_view_type`. It
declares none for `copy`. -/
inductive counted_request (S Smp IV B BV : Type) where
  | write_image (w : descriptor_set.write_image S Smp IV)
  | write_buffer (w : descriptor_set.write_buffer_type S B)
  | write_buffer_view (w : descriptor_set.write_buffer_view_type S BV)

/-- The overload of `count` that accepts a request, if the header declares
one. -/
def request.counted {S Smp IV B BV : Type} :
    request S Smp IV B BV → Option (counted_request S Smp IV B BV)
  | .copy _ => none
  | .write_image w => some (.write_image w)
  | .write_buffer w => some (.write_buffer w)
  | .write_buffer_view w => some (.write_buffer_view w)

/-- Modelled from the spec: the bodies of the three overloads of `count`
(defined in `descriptor_set.cpp`, which is not among the sources). The count
phase computes how many entries a request contributes to each collection and
accumulates the totals, writing nothing: a write is one write descriptor and
one nested array of its kind. -/
def count {S Smp IV B BV : Type} (storage : update_storage S Smp IV B BV) :
    counted_request S Smp IV B BV → update_storage S Smp IV B BV
  | .write_image _ =>
      { storage with write_sets_size := storage.write_sets_size + 1,
                     image_info_size := storage.image_info_size + 1 }
  | .write_buffer _ =>
      { storage with write_sets_size := storage.write_sets_size + 1,
                     buffer_info_size := storage.buffer_info_size + 1 }
  | .write_buffer_view _ =>
      { storage with write_sets_size := storage.write_sets_size + 1,
                     buffer_view_size := storage.buffer_view_size + 1 }

/-- Modelled from the spec: the bodies of the four overloads of `add` (defined
in `descriptor_set.cpp`, which is not among the sources). The fill phase
appends the descriptor values of a request: a copy appends one copy descriptor;
a write appends its nested array to the collection of its kind and one write
descriptor that points to the array just appended. -/
def add {S Smp IV B BV : Type} (storage : update_storage S Smp IV B BV) :
    request S Smp IV B BV → update_storage S Smp IV B BV
  | .copy c =>
      { storage with copy_sets := storage.copy_sets ++
          [{ srcSet := c.src_set, srcBinding := c.src_binding,
             srcArrayElement := c.src_array_element, dstSet := c.dst_set,
             dstBinding := c.dst_binding, dstArrayElement := c.dst_array_element,
             descriptorCount := c.descriptor_count }] }
  | .write_image w =>
      { storage with
          image_infos := storage.image_infos ++ [w.images],
          write_sets := storage.write_sets ++
            [{ dstSet := w.dst_set, dstBinding := w.dst_binding,
               dstArrayElement := w.dst_array_element,
               descriptorCount := w.images.length,
               descriptorType := w.descriptor_type,
               info := .image_infos storage.image_infos.length }] }
  | .write_buffer w =>
      { storage with
          buffer_infos := storage.buffer_infos ++ [w.buffers],
          write_sets := storage.write_sets ++
            [{ dstSet := w.dst_set, dstBinding := w.dst_binding,
               dstArrayElement := w.dst_array_element,
               descriptorCount := w.buffers.length,
               descriptorType := w.descriptor_type,
               info := .buffer_infos storage.buffer_infos.length }] }
  | .write_buffer_view w =>
      { storage with
          buffer_view := storage.buffer_view ++ [w.buffers],
          write_sets := storage.write_sets ++
            [{ dstSet := w.dst_set, dstBinding := w.dst_binding,
               dstArrayElement := w.dst_array_element,
               descriptorCount := w.buffers.length,
               descriptorType := w.descriptor_type,
               info := .buffer_view storage.buffer_view.length }] }

/-- The count phase at one request of a batch: the overload of `count` for the
request is applied; a copy has none, and the totals stay as they are. -/
def count_step {S Smp IV B BV : Type} (storage : update_storage S Smp IV B BV)
    (r : request S Smp IV B BV) : update_storage S Smp IV B BV :=
  match r.counted with
  | some w => count storage w
  | none => storage

/-- The count phase over a batch, request by request, in order. -/
def count_all {S Smp IV B BV : Type} (storage : update_storage S Smp IV B BV)
    (requests : List (request S Smp IV B BV)) : update_storage S Smp IV B BV :=
  requests.foldl count_step storage

/-- The fill phase over a batch, request by request, in order. -/
def add_all {S Smp IV B BV : Type} (storage : update_storage S Smp IV B BV)
    (requests : List (request S Smp IV B BV)) : update_storage S Smp IV B BV :=
  requests.foldl add storage

/-- The state after the count phase of a batch, from a fresh
`update_storage`. -/
def count_phase {S Smp IV B BV : Type} (requests : List (request S Smp IV B BV)) :
    update_storage S Smp IV B BV :=
  count_all update_storage.fresh requests

/-- The state after the count phase and then the fill phase of a batch, in the
same order. -/
def fill_phase {S Smp IV B BV : Type} (requests : List (request S Smp IV B BV)) :
    update_storage S Smp IV B BV :=
  add_all (count_phase requests) requests

end internal

end descriptor_set

end vcc

namespace vcc

open internal

/-- The equality operator decides equality of the two structs. -/
theorem bind_point_eq_iff (k1 k2 : bind_point_type) :
    k1.eq k2 = true ↔ k1 = k2 := by
  cases k1; cases k2
  simp [bind_point_type.eq]

/-- On small coordinates the packed hash is `16 * bind + index`. -/
theorem hash_wide_small (k : bind_point_type) (hb : k.bind < 2 ^ 28)
    (hi : k.index < 16) : hash_bind_point true k = 2 ^ 4 * k.bind + k.index := by
  have h1 : k.bind <<< 4 = 2 ^ 4 * k.bind := by
    rw [Nat.shiftLeft_eq, Nat.mul_comm]
  have h2 : 2 ^ 4 * k.bind < 2 ^ 32 := by omega
  have h3 : k.index < 2 ^ 4 := by omega
  simp only [hash_bind_point, if_true, h1, Nat.mod_eq_of_lt h2]
  exact (Nat.mul_add_lt_is_or h3 k.bind).symm

/-- C1: equal keys (under `operator==`) have equal hashes, in the 64-bit
branch and in the other branch alike. -/
theorem hash_respects_eq (wide : Bool) (k1 k2 : bind_point_type)
    (h : k1.eq k2 = true) : hash_bind_point wide k1 = hash_bind_point wide k2 := by
  rw [(bind_point_eq_iff k1 k2).mp h]

theorem hash_respects_eq_witness :
    (bind_point_type.mk 3 5).eq (bind_point_type.mk 3 5) = true ∧
    hash_bind_point true (bind_point_type.mk 3 5) = hash_bind_point true (bind_point_type.mk 3 5) ∧
    hash_bind_point false (bind_point_type.mk 3 5) = hash_bind_point false (bind_point_type.mk 3 5) :=
  ⟨by decide, hash_respects_eq true _ _ (by decide), hash_respects_eq false _ _ (by decide)⟩

/-- C2: `operator==` is true exactly when both fields agree; hence it is
reflexive, symmetric and transitive, and keys that differ in a field compare
unequal. -/
theorem bind_point_eq_exact :
    (∀ k1 k2 : bind_point_type,
      k1.eq k2 = true ↔ (k1.bind = k2.bind ∧ k1.index = k2.index)) ∧
    (∀ k : bind_point_type, k.eq k = true) ∧
    (∀ k1 k2 : bind_point_type, k1.eq k2 = k2.eq k1) ∧
    (∀ k1 k2 k3 : bind_point_type,
      k1.eq k2 = true → k2.eq k3 = true → k1.eq k3 = true) ∧
    (∀ k1 k2 : bind_point_type,
      (k1.bind ≠ k2.bind ∨ k1.index ≠ k2.index) → k1.eq k2 = false) := by
  refine ⟨?_, ?_, ?_, ?_, ?_⟩
  · intro k1 k2
    simp [bind_point_type.eq]
  · intro k
    simp [bind_point_type.eq]
  · intro k1 k2
    simp only [bind_point_type.eq]
    rw [Bool.eq_iff_iff]
    simp only [Bool.and_eq_true, beq_iff_eq]
    constructor <;> rintro ⟨a, b⟩ <;> exact ⟨a.symm, b.symm⟩
  · intro k1 k2 k3 h12 h23
    simp only [bind_point_type.eq, Bool.and_eq_true, beq_iff_eq] at *
    exact ⟨h12.1.trans h23.1, h12.2.trans h23.2⟩
  · intro k1 k2 h
    simp only [bind_point_type.eq, Bool.and_eq_false_iff, beq_eq_false_iff_ne]
    exact h

theorem bind_point_eq_exact_witness :
    (bind_point_type.mk 2 3).eq (bind_point_type.mk 2 3) = true ∧
    (bind_point_type.mk 2 3).eq (bind_point_type.mk 2 4) = false ∧
    (bind_point_type.mk 1 3).eq (bind_point_type.mk 2 3) = false :=
  ⟨bind_point_eq_exact.2.2.2.1 (bind_point_type.mk 2 3) (bind_point_type.mk 2 3)
      (bind_point_type.mk 2 3) (by decide) (by decide),
    bind_point_eq_exact.2.2.2.2 (bind_point_type.mk 2 3) (bind_point_type.mk 2 4)
      (Or.inr (by decide)),
    bind_point_eq_exact.2.2.2.2 (bind_point_type.mk 1 3) (bind_point_type.mk 2 3)
      (Or.inl (by decide))⟩

/-- C9: in the 64-bit branch the hash is `((bind * 16) mod 2^32) ||| index`,
and on keys with `bind < 2^28` and `index < 16` equal hashes force equal
keys. -/
theorem hash_wide_injective_small :
    (∀ k : bind_point_type,
      hash_bind_point true k = ((k.bind * 16) % 2 ^ 32) ||| k.index) ∧
    (∀ k1 k2 : bind_point_type,
      k1.bind < 2 ^ 28 → k1.index < 16 → k2.bind < 2 ^ 28 → k2.index < 16 →
      hash_bind_point true k1 = hash_bind_point true k2 → k1.eq k2 = true) := by
  refine ⟨fun k => by simp [hash_bind_point, Nat.shiftLeft_eq], ?_⟩
  intro k1 k2 hb1 hi1 hb2 hi2 h
  rw [hash_wide_small k1 hb1 hi1, hash_wide_small k2 hb2 hi2] at h
  rw [bind_point_eq_iff]
  cases k1; cases k2
  simp only [bind_point_type.mk.injEq] at *
  omega

theorem hash_wide_injective_small_witness :
    hash_bind_point true (bind_point_type.mk 7 9) = 121 ∧
    hash_bind_point true (bind_point_type.mk (5 + 2) (10 - 1)) = 121 ∧
    (bind_point_type.mk 7 9).eq (bind_point_type.mk (5 + 2) (10 - 1)) = true :=
  ⟨by decide, by decide,
    hash_wide_injective_small.2 (bind_point_type.mk 7 9)
      (bind_point_type.mk (5 + 2) (10 - 1))
      (by decide) (by decide) (by decide) (by decide) (by decide)⟩

/-- C10: the 64-bit packing is lossy, the keys `(1, 0)` and `(0, 16)` differ
and hash alike, and every well-formed key hashes below `2 ^ 32`. -/
theorem hash_wide_lossy_and_bounded :
    (bind_point_type.mk 1 0 ≠ bind_point_type.mk 0 16 ∧
      (bind_point_type.mk 1 0).eq (bind_point_type.mk 0 16) = false ∧
      hash_bind_point true (bind_point_type.mk 1 0) =
        hash_bind_point true (bind_point_type.mk 0 16)) ∧
    (∀ k : bind_point_type, k.is_uint32 → hash_bind_point true k < 2 ^ 32) := by
  refine ⟨⟨by decide, by decide, by decide⟩, ?_⟩
  intro k hk
  simp only [hash_bind_point, if_true]
  exact Nat.or_lt_two_pow (Nat.mod_lt _ (by norm_num)) hk.2

theorem hash_wide_lossy_and_bounded_witness :
    (bind_point_type.mk (2 ^ 32 - 1) (2 ^ 32 - 1)).is_uint32 ∧
    hash_bind_point true (bind_point_type.mk (2 ^ 32 - 1) (2 ^ 32 - 1)) < 2 ^ 32 :=
  ⟨by decide, hash_wide_lossy_and_bounded.2 _ (by decide)⟩

open descriptor_set

/-- C3 (the code at a failing input): a descriptor set whose reference registry
holds a token at bind point `(0, 0)` is move-constructed; the new set holds no
token there, and its reference registry differs from the one moved from. -/
theorem move_construct_drops_references :
    (registry.lookup true
        (descriptor_set_type.mk () (registry.empty : registry (List Nat))
          (registry.insert true (registry.empty : registry Nat)
            (bind_point_type.mk 0 0) 7)).references
        (bind_point_type.mk 0 0) = some 7) ∧
    (registry.lookup true
        (descriptor_set_type.move_construct
          (descriptor_set_type.mk () (registry.empty : registry (List Nat))
            (registry.insert true (registry.empty : registry Nat)
              (bind_point_type.mk 0 0) 7))).references
        (bind_point_type.mk 0 0) = none) ∧
    (descriptor_set_type.move_construct
        (descriptor_set_type.mk () (registry.empty : registry (List Nat))
          (registry.insert true (registry.empty : registry Nat)
            (bind_point_type.mk 0 0) 7))).references.buckets = [[]] ∧
    (∀ D : descriptor_set_type Unit Nat Nat,
      D.move_construct.references.buckets = [[]]) := by
  refine ⟨by decide, by decide, rfl, fun _ => rfl⟩

/-- C4: the move constructor hands the hook registry over unchanged: the new
set holds the registry the old one held, so every bind point looks up the same
callback list, in the same order. -/
theorem move_construct_keeps_hooks {Base Cb Tok : Type}
    (D : descriptor_set_type Base Cb Tok) :
    D.move_construct.pre_execute_callbacks = D.pre_execute_callbacks ∧
    D.move_construct.pre_execute_callbacks.buckets = D.pre_execute_callbacks.buckets ∧
    (∀ (wide : Bool) (k : bind_point_type),
      D.move_construct.pre_execute_callbacks.lookup wide k =
        D.pre_execute_callbacks.lookup wide k) :=
  ⟨rfl, rfl, fun _ _ => rfl⟩

/-- C5 (counterexample): `write_buffer` with the tag `SAMPLER`, which is outside
the legal subset, returns a request that carries `SAMPLER`. -/
theorem write_buffer_accepts_sampler :
    write_buffer_legal VkDescriptorType.SAMPLER = false ∧
    (write_buffer (0 : Nat) 0 0 VkDescriptorType.SAMPLER
      ([] : List (buffer_info_type Nat))).descriptor_type = VkDescriptorType.SAMPLER ∧
    ¬ (∀ tag : VkDescriptorType, write_buffer_legal tag = false →
        (write_buffer (0 : Nat) 0 0 tag
          ([] : List (buffer_info_type Nat))).descriptor_type ≠ tag) := by
  refine ⟨rfl, rfl, ?_⟩
  intro h
  exact h VkDescriptorType.SAMPLER rfl rfl

/-- C5 (amended): for every tag outside the legal subset, `write_buffer` is not
rejected: it returns a request that carries exactly that tag. -/
theorem write_buffer_unchecked {S B : Type} (dst_set : S)
    (dst_binding dst_array_element : Nat) (tag : VkDescriptorType)
    (buffers : List (buffer_info_type B)) (h : write_buffer_legal tag = false) :
    (write_buffer dst_set dst_binding dst_array_element tag buffers).descriptor_type
      = tag ∧
    write_buffer_legal
      (write_buffer dst_set dst_binding dst_array_element tag buffers).descriptor_type
      = false :=
  ⟨rfl, h⟩

theorem write_buffer_unchecked_witness :
    write_buffer_legal VkDescriptorType.STORAGE_TEXEL_BUFFER = false ∧
    (write_buffer (4 : Nat) 1 2 VkDescriptorType.STORAGE_TEXEL_BUFFER
      [buffer_info (9 : Nat) 0 64]).descriptor_type
      = VkDescriptorType.STORAGE_TEXEL_BUFFER ∧
    write_buffer_legal
      (write_buffer (4 : Nat) 1 2 VkDescriptorType.STORAGE_TEXEL_BUFFER
        [buffer_info (9 : Nat) 0 64]).descriptor_type = false :=
  ⟨by decide,
    write_buffer_unchecked (4 : Nat) 1 2 VkDescriptorType.STORAGE_TEXEL_BUFFER
      [buffer_info (9 : Nat) 0 64] (by decide)⟩

/-- C6: `write_buffer` returns a request whose fields are its arguments, the
buffers in the same number and order, and `buffer_info` returns its three
arguments as a triple. -/
theorem write_buffer_preserves_arguments {S B : Type} (dst_set : S)
    (dst_binding dst_array_element : Nat) (descriptor_type : VkDescriptorType)
    (buffers : List (buffer_info_type B)) (b : B) (offset range : Nat) :
    (write_buffer dst_set dst_binding dst_array_element descriptor_type
      buffers).dst_set = dst_set ∧
    (write_buffer dst_set dst_binding dst_array_element descriptor_type
      buffers).dst_binding = dst_binding ∧
    (write_buffer dst_set dst_binding dst_array_element descriptor_type
      buffers).dst_array_element = dst_array_element ∧
    (write_buffer dst_set dst_binding dst_array_element descriptor_type
      buffers).descriptor_type = descriptor_type ∧
    (write_buffer dst_set dst_binding dst_array_element descriptor_type
      buffers).buffers.length = buffers.length ∧
    (write_buffer dst_set dst_binding dst_array_element descriptor_type
      buffers).buffers = buffers ∧
    (buffer_info b offset range).buffer = b ∧
    (buffer_info b offset range).offset = offset ∧
    (buffer_info b offset range).range = range :=
  ⟨rfl, rfl, rfl, rfl, rfl, rfl, rfl, rfl, rfl⟩

open descriptor_set.internal

/-- A batch of one copy and one buffer write with two buffers, counted and then
filled: one copy descriptor, one write descriptor that covers two buffers and
points to the first buffer array, and totals `0, 1, 0, 1, 0`. -/
theorem count_then_add_example :
    fill_phase ([request.copy (descriptor_set.copy.mk 1 0 0 2 0 0 1),
       request.write_buffer (write_buffer 2 3 0 VkDescriptorType.UNIFORM_BUFFER
         [buffer_info 5 0 64, buffer_info 6 64 64])] :
       List (request Nat Nat Nat Nat Nat)) =
    { copy_sets := [VkCopyDescriptorSet.mk 1 0 0 2 0 0 1],
      write_sets := [VkWriteDescriptorSet.mk 2 3 0 2
        VkDescriptorType.UNIFORM_BUFFER (nested_ref.buffer_infos 0)],
      image_infos := [],
      buffer_infos := [[buffer_info_type.mk 5 0 64, buffer_info_type.mk 6 64 64]],
      buffer_view := [],
      copy_sets_size := 0, write_sets_size := 1, image_info_size := 0,
      buffer_info_size := 1, buffer_view_size := 0 } := rfl

end vcc
